import Mathlib

/-!
Verification of the `chinese_calendar` HTTP API layer (`chinese_calendar/api.py`).

The calendar data source and the helper module `chinese_calendar/utils.py`
(`is_workday`, `get_dates`, the trading-day predicates and range helpers) are
not part of the sources under verification; following the design spec they are
treated as an external oracle plus definitions modelled from the spec's words.
Dates are embedded as proleptic-Gregorian (year, month, day) triples with the
same ordinal arithmetic as Python's `datetime.date` (ordinal 1 = 0001-01-01,
`weekday()` with Monday = 0).
-/

namespace ChineseCalendar

/-- A calendar day: the embedding of Python's `datetime.date` value. -/
structure Date where
  year : Nat
  month : Nat
  day : Nat
deriving DecidableEq, Repr

/-- Gregorian leap-year rule, as `datetime` implements it. -/
def isLeap (y : Nat) : Bool :=
  decide (y % 4 = 0 ∧ (y % 100 ≠ 0 ∨ y % 400 = 0))

/-- Days in a month, over a leap flag; 0 for an out-of-range month number. -/
def daysInMonthAux (leap : Bool) (m : Nat) : Nat :=
  match m with
  | 1 => 31
  | 2 => if leap then 29 else 28
  | 3 => 31
  | 4 => 30
  | 5 => 31
  | 6 => 30
  | 7 => 31
  | 8 => 31
  | 9 => 30
  | 10 => 31
  | 11 => 30
  | 12 => 31
  | _ => 0

def daysInMonth (y m : Nat) : Nat := daysInMonthAux (isLeap y) m

/-- Days in the year strictly before month `m`, over a leap flag. -/
def daysBeforeMonthAux (leap : Bool) (m : Nat) : Nat :=
  let l : Nat := if leap then 1 else 0
  match m with
  | 1 => 0
  | 2 => 31
  | 3 => 59 + l
  | 4 => 90 + l
  | 5 => 120 + l
  | 6 => 151 + l
  | 7 => 181 + l
  | 8 => 212 + l
  | 9 => 243 + l
  | 10 => 273 + l
  | 11 => 304 + l
  | 12 => 334 + l
  | _ => 0

def daysBeforeMonth (y m : Nat) : Nat := daysBeforeMonthAux (isLeap y) m

/-- Days strictly before January 1 of year `y` (year 1 is day 0). -/
def daysBeforeYear (y : Nat) : Nat :=
  365 * (y - 1) + (y - 1) / 4 - (y - 1) / 100 + (y - 1) / 400

/-- `datetime.date.toordinal`: 0001-01-01 has ordinal 1. -/
def toOrdinal (d : Date) : Nat :=
  daysBeforeYear d.year + daysBeforeMonth d.year d.month + d.day

/-- `datetime.date.weekday`: Monday = 0 … Sunday = 6. -/
def weekday (d : Date) : Nat := (toOrdinal d + 6) % 7

/-- Saturday or Sunday. -/
def isWeekend (d : Date) : Bool := decide (5 ≤ weekday d)

/-- The triple denotes a real proleptic-Gregorian date with year ≥ 1. -/
def Valid (d : Date) : Prop :=
  1 ≤ d.year ∧ 1 ≤ d.month ∧ d.month ≤ 12 ∧ 1 ≤ d.day ∧ d.day ≤ daysInMonth d.year d.month

instance (d : Date) : Decidable (Valid d) := by
  unfold Valid; infer_instance

/-- Python's `<` on dates: componentwise lexicographic order. -/
def dateLt (a b : Date) : Bool :=
  decide (a.year < b.year ∨ (a.year = b.year ∧
    (a.month < b.month ∨ (a.month = b.month ∧ a.day < b.day))))

def dateLe (a b : Date) : Bool := dateLt a b || decide (a = b)

/-- The calendar successor of a date (day, month, year rollover). -/
def nextDate (d : Date) : Date :=
  if d.day < daysInMonth d.year d.month then ⟨d.year, d.month, d.day + 1⟩
  else if d.month < 12 then ⟨d.year, d.month + 1, 1⟩
  else ⟨d.year + 1, 1, 1⟩

/-- `d` plus `n` calendar days. -/
def addDays (d : Date) : Nat → Date
  | 0 => d
  | n + 1 => nextDate (addDays d n)

/-- Modelled from the spec: `chinese_calendar.utils.get_dates` (not among the
sources) — every date from `start` to `stop` inclusive, ascending; empty when
`stop` is earlier. -/
def get_dates (start stop : Date) : List Date :=
  (List.range (toOrdinal stop + 1 - toOrdinal start)).map (addDays start)

/-! Arithmetic facts about the ordinal embedding. -/

theorem valid_mk (y m day : Nat) :
    Valid ⟨y, m, day⟩ ↔ (1 ≤ y ∧ 1 ≤ m ∧ m ≤ 12 ∧ 1 ≤ day ∧ day ≤ daysInMonth y m) :=
  Iff.rfl

theorem toOrdinal_mk (y m day : Nat) :
    toOrdinal ⟨y, m, day⟩ = daysBeforeYear y + daysBeforeMonth y m + day :=
  rfl

set_option maxHeartbeats 1000000 in
theorem succ_year_arith (k : Nat) :
    365 * (k + 1) + (k + 1) / 4 - (k + 1) / 100 + (k + 1) / 400 =
      (365 * k + k / 4 - k / 100 + k / 400) +
        (if (k + 1) % 4 = 0 ∧ ((k + 1) % 100 ≠ 0 ∨ (k + 1) % 400 = 0) then 366 else 365) := by
  split <;> omega

theorem daysBeforeYear_succ (y : Nat) (hy : 1 ≤ y) :
    daysBeforeYear (y + 1) = daysBeforeYear y + (if isLeap y then 366 else 365) := by
  obtain ⟨k, rfl⟩ : ∃ k, y = k + 1 := ⟨y - 1, by omega⟩
  unfold daysBeforeYear
  simp only [Nat.add_sub_cancel, isLeap, decide_eq_true_eq]
  exact succ_year_arith k

theorem daysBeforeYear_le_add (y k : Nat) (hy : 1 ≤ y) :
    daysBeforeYear y ≤ daysBeforeYear (y + k) := by
  induction k with
  | zero => exact Nat.le_refl _
  | succ k ih =>
    have h1 := daysBeforeYear_succ (y + k) (by omega)
    have h2 : 365 ≤ (if isLeap (y + k) then 366 else 365) := by split <;> omega
    rw [← Nat.add_assoc]
    omega

theorem daysBeforeYear_le_of_le {y z : Nat} (h : y ≤ z) :
    daysBeforeYear y ≤ daysBeforeYear z := by
  rcases Nat.eq_zero_or_pos y with hy | hy
  · subst hy
    show daysBeforeYear 0 ≤ daysBeforeYear z
    unfold daysBeforeYear
    omega
  · have := daysBeforeYear_le_add y (z - y) hy
    have hz : y + (z - y) = z := by omega
    rwa [hz] at this

theorem daysBeforeMonthAux_add_daysInMonthAux_le :
    ∀ (b : Bool), ∀ m < 13, 1 ≤ m →
      daysBeforeMonthAux b m + daysInMonthAux b m ≤ 365 + (if b then 1 else 0) := by
  decide

theorem daysBeforeMonthAux_mono :
    ∀ (b : Bool), ∀ m₁ < 13, ∀ m₂ < 13, 1 ≤ m₁ → m₁ < m₂ →
      daysBeforeMonthAux b m₁ + daysInMonthAux b m₁ ≤ daysBeforeMonthAux b m₂ := by
  decide

theorem daysInMonthAux_le_31 : ∀ (b : Bool), ∀ m < 13, daysInMonthAux b m ≤ 31 := by
  decide

theorem daysInMonthAux_pos : ∀ (b : Bool), ∀ m < 13, 1 ≤ m → 1 ≤ daysInMonthAux b m := by
  decide

theorem daysBeforeMonthAux_step :
    ∀ (b : Bool), ∀ m < 12, 1 ≤ m →
      daysBeforeMonthAux b (m + 1) = daysBeforeMonthAux b m + daysInMonthAux b m := by
  decide

theorem daysBeforeMonthAux_last (b : Bool) :
    daysBeforeMonthAux b 12 + daysInMonthAux b 12 = 365 + (if b then 1 else 0) := by
  cases b <;> decide

/-- Within a valid date's year, the month/day offset stays below the year length. -/
theorem ordinal_year_bound {d : Date} (h : Valid d) :
    daysBeforeMonth d.year d.month + d.day ≤ 365 + (if isLeap d.year then 1 else 0) := by
  obtain ⟨-, hm1, hm12, -, hd2⟩ := h
  have := daysBeforeMonthAux_add_daysInMonthAux_le (isLeap d.year) d.month (by omega) hm1
  unfold daysBeforeMonth daysInMonth at *
  omega

theorem toOrdinal_lt_of_dateLt {a b : Date} (ha : Valid a) (hb : Valid b)
    (h : dateLt a b = true) : toOrdinal a < toOrdinal b := by
  unfold dateLt at h
  rw [decide_eq_true_eq] at h
  obtain ⟨hya, hma1, hma12, hda1, hda2⟩ := ha
  obtain ⟨hyb, hmb1, hmb12, hdb1, hdb2⟩ := hb
  unfold toOrdinal
  rcases h with hy | ⟨hy, hm | ⟨hm, hd⟩⟩
  · -- strictly earlier year
    have h1 : daysBeforeMonth a.year a.month + a.day ≤ 365 + (if isLeap a.year then 1 else 0) :=
      ordinal_year_bound ⟨hya, hma1, hma12, hda1, hda2⟩
    have h2 : daysBeforeYear (a.year + 1) =
        daysBeforeYear a.year + (if isLeap a.year then 366 else 365) :=
      daysBeforeYear_succ a.year hya
    have h3 : daysBeforeYear (a.year + 1) ≤ daysBeforeYear b.year :=
      daysBeforeYear_le_of_le (by omega)
    have h4 : 0 < daysBeforeMonth b.year b.month + b.day := by omega
    by_cases hl : isLeap a.year <;> simp [hl] at h1 h2 <;> omega
  · -- same year, strictly earlier month
    rw [hy]
    have h1 : daysBeforeMonthAux (isLeap b.year) a.month + daysInMonthAux (isLeap b.year) a.month
        ≤ daysBeforeMonthAux (isLeap b.year) b.month := by
      exact daysBeforeMonthAux_mono (isLeap b.year) a.month (by omega) b.month (by omega) hma1 hm
    unfold daysBeforeMonth daysInMonth at *
    rw [hy] at hda2
    omega
  · -- same year and month, strictly earlier day
    rw [hy, hm]; omega

theorem dateLt_trichotomy (a b : Date) :
    dateLt a b = true ∨ a = b ∨ dateLt b a = true := by
  unfold dateLt
  rcases a with ⟨ya, ma, da⟩
  rcases b with ⟨yb, mb, db⟩
  simp only [decide_eq_true_eq, Date.mk.injEq]
  omega

theorem toOrdinal_injOn {a b : Date} (ha : Valid a) (hb : Valid b)
    (h : toOrdinal a = toOrdinal b) : a = b := by
  rcases dateLt_trichotomy a b with hlt | heq | hgt
  · exact absurd h (Nat.ne_of_lt (toOrdinal_lt_of_dateLt ha hb hlt))
  · exact heq
  · exact absurd h.symm (Nat.ne_of_lt (toOrdinal_lt_of_dateLt hb ha hgt))

theorem dateLt_of_toOrdinal_lt {a b : Date} (ha : Valid a) (hb : Valid b)
    (h : toOrdinal a < toOrdinal b) : dateLt a b = true := by
  rcases dateLt_trichotomy a b with hlt | heq | hgt
  · exact hlt
  · subst heq; omega
  · exact absurd (toOrdinal_lt_of_dateLt hb ha hgt) (by omega)

theorem daysInMonth_jan_pos (y : Nat) : 1 ≤ daysInMonth y 1 := by
  show 1 ≤ daysInMonthAux (isLeap y) 1
  cases isLeap y <;> decide

theorem nextDate_valid {d : Date} (h : Valid d) : Valid (nextDate d) := by
  obtain ⟨hy, hm1, hm12, hd1, hd2⟩ := h
  by_cases h1 : d.day < daysInMonth d.year d.month
  · simp only [nextDate, h1, if_pos, valid_mk]
    exact ⟨hy, hm1, hm12, by omega, h1⟩
  · by_cases h2 : d.month < 12
    · simp only [nextDate, h1, h2, if_neg, if_pos, not_false_iff, valid_mk]
      refine ⟨hy, by omega, by omega, by omega, ?_⟩
      exact daysInMonthAux_pos (isLeap d.year) (d.month + 1) (by omega) (by omega)
    · simp only [nextDate, h1, h2, if_neg, not_false_iff, valid_mk]
      exact ⟨by omega, by omega, by omega, by omega, daysInMonth_jan_pos (d.year + 1)⟩

theorem toOrdinal_nextDate {d : Date} (h : Valid d) :
    toOrdinal (nextDate d) = toOrdinal d + 1 := by
  obtain ⟨hy, hm1, hm12, hd1, hd2⟩ := h
  by_cases h1 : d.day < daysInMonth d.year d.month
  · simp only [nextDate, h1, if_pos, toOrdinal_mk]
    show _ = toOrdinal d + 1
    unfold toOrdinal
    omega
  · by_cases h2 : d.month < 12
    · simp only [nextDate, h1, h2, if_neg, if_pos, not_false_iff, toOrdinal_mk]
      have hstep := daysBeforeMonthAux_step (isLeap d.year) d.month (by omega) hm1
      show _ = toOrdinal d + 1
      unfold toOrdinal daysBeforeMonth daysInMonth at *
      omega
    · simp only [nextDate, h1, h2, if_neg, not_false_iff, toOrdinal_mk]
      have hm : d.month = 12 := by omega
      have hlast := daysBeforeMonthAux_last (isLeap d.year)
      have hsucc := daysBeforeYear_succ d.year hy
      have h365 : (if isLeap d.year then 366 else 365) =
          365 + (if isLeap d.year then 1 else 0) := by split <;> omega
      have hjan : daysBeforeMonth (d.year + 1) 1 = 0 := by
        show daysBeforeMonthAux (isLeap (d.year + 1)) 1 = 0
        cases isLeap (d.year + 1) <;> decide
      have hday : d.day = daysInMonthAux (isLeap d.year) 12 := by
        unfold daysInMonth at h1 hd2
        rw [hm] at h1 hd2
        omega
      have hord : toOrdinal d =
          daysBeforeYear d.year + daysBeforeMonthAux (isLeap d.year) 12 + d.day := by
        unfold toOrdinal daysBeforeMonth
        rw [hm]
      rw [hjan, hord]
      omega

theorem addDays_valid {d : Date} (h : Valid d) (n : Nat) : Valid (addDays d n) := by
  induction n with
  | zero => exact h
  | succ n ih => exact nextDate_valid ih

theorem toOrdinal_addDays {d : Date} (h : Valid d) (n : Nat) :
    toOrdinal (addDays d n) = toOrdinal d + n := by
  induction n with
  | zero => rfl
  | succ n ih =>
    have := toOrdinal_nextDate (addDays_valid h n)
    simp only [addDays]
    omega

theorem dateLt_irrefl (a : Date) : dateLt a a = false := by
  unfold dateLt
  simp

theorem ne_of_dateLt {a b : Date} (h : dateLt a b = true) : a ≠ b := by
  intro he
  subst he
  rw [dateLt_irrefl] at h
  exact Bool.false_ne_true h

theorem toOrdinal_le_of_dateLe {s e : Date} (hs : Valid s) (he : Valid e)
    (h : dateLe s e = true) : toOrdinal s ≤ toOrdinal e := by
  unfold dateLe at h
  rcases Bool.or_eq_true_iff.mp h with hlt | heq
  · exact Nat.le_of_lt (toOrdinal_lt_of_dateLt hs he hlt)
  · rw [decide_eq_true_eq] at heq
    rw [heq]

theorem get_dates_getElem (s e : Date) (i : Nat) (hi : i < (get_dates s e).length) :
    (get_dates s e).get ⟨i, hi⟩ = addDays s i := by
  simp [get_dates] at hi ⊢

theorem get_dates_length (s e : Date) :
    (get_dates s e).length = toOrdinal e + 1 - toOrdinal s := by
  simp [get_dates]

theorem get_dates_head? {s e : Date} (h : toOrdinal s ≤ toOrdinal e) :
    (get_dates s e).head? = some s := by
  unfold get_dates
  rw [show toOrdinal e + 1 - toOrdinal s = (toOrdinal e - toOrdinal s) + 1 by omega,
    List.range_succ_eq_map]
  rfl

theorem get_dates_getLast? {s e : Date} (hs : Valid s) (he : Valid e)
    (h : toOrdinal s ≤ toOrdinal e) : (get_dates s e).getLast? = some e := by
  unfold get_dates
  rw [show toOrdinal e + 1 - toOrdinal s = (toOrdinal e - toOrdinal s) + 1 by omega,
    List.range_succ, List.map_append, List.map_cons, List.map_nil, List.getLast?_concat]
  have hv : Valid (addDays s (toOrdinal e - toOrdinal s)) := addDays_valid hs _
  have ho : toOrdinal (addDays s (toOrdinal e - toOrdinal s)) = toOrdinal e := by
    rw [toOrdinal_addDays hs]
    omega
  rw [toOrdinal_injOn hv he ho]

theorem get_dates_pairwise {s e : Date} (hs : Valid s) :
    List.Pairwise (fun a b => dateLt a b = true) (get_dates s e) := by
  unfold get_dates
  rw [List.pairwise_map]
  refine (List.pairwise_lt_range _).imp ?_
  intro i j hij
  apply dateLt_of_toOrdinal_lt (addDays_valid hs i) (addDays_valid hs j)
  rw [toOrdinal_addDays hs, toOrdinal_addDays hs]
  omega

/-- C3: range expansion (`get_dates`, as `_collect_dates` uses it) yields a
sequence of length (end − start in days) + 1 that starts at `start`, ends at
`end`, is strictly increasing, gap-free (consecutive ordinals differ by 1) and
duplicate-free. -/
theorem claim_C3 (s e : Date) (hs : Valid s) (he : Valid e) (hle : dateLe s e = true) :
    (get_dates s e).length = (toOrdinal e - toOrdinal s) + 1
    ∧ (get_dates s e).head? = some s
    ∧ (get_dates s e).getLast? = some e
    ∧ List.Pairwise (fun a b => dateLt a b = true) (get_dates s e)
    ∧ (∀ i (hi : i + 1 < (get_dates s e).length),
        toOrdinal ((get_dates s e).get ⟨i + 1, hi⟩)
          = toOrdinal ((get_dates s e).get ⟨i, by omega⟩) + 1)
    ∧ (get_dates s e).Nodup := by
  have hord := toOrdinal_le_of_dateLe hs he hle
  refine ⟨?_, get_dates_head? hord, get_dates_getLast? hs he hord,
    get_dates_pairwise hs, ?_, ?_⟩
  · rw [get_dates_length]
    omega
  · intro i hi
    rw [get_dates_getElem, get_dates_getElem, toOrdinal_addDays hs, toOrdinal_addDays hs]
    omega
  · exact (get_dates_pairwise hs).imp (fun h => ne_of_dateLt h)

/-- Closed instance of C3 on the range 2018-02-10 … 2018-02-12. -/
theorem claim_C3_witness :
    Valid ⟨2018, 2, 10⟩ ∧ Valid ⟨2018, 2, 12⟩ ∧ dateLe ⟨2018, 2, 10⟩ ⟨2018, 2, 12⟩ = true
    ∧ ((get_dates ⟨2018, 2, 10⟩ ⟨2018, 2, 12⟩).length
        = (toOrdinal ⟨2018, 2, 12⟩ - toOrdinal ⟨2018, 2, 10⟩) + 1
      ∧ (get_dates ⟨2018, 2, 10⟩ ⟨2018, 2, 12⟩).head? = some ⟨2018, 2, 10⟩
      ∧ (get_dates ⟨2018, 2, 10⟩ ⟨2018, 2, 12⟩).getLast? = some ⟨2018, 2, 12⟩
      ∧ List.Pairwise (fun a b => dateLt a b = true) (get_dates ⟨2018, 2, 10⟩ ⟨2018, 2, 12⟩)
      ∧ (∀ i (hi : i + 1 < (get_dates ⟨2018, 2, 10⟩ ⟨2018, 2, 12⟩).length),
          toOrdinal ((get_dates ⟨2018, 2, 10⟩ ⟨2018, 2, 12⟩).get ⟨i + 1, hi⟩)
            = toOrdinal ((get_dates ⟨2018, 2, 10⟩ ⟨2018, 2, 12⟩).get ⟨i, by omega⟩) + 1)
      ∧ (get_dates ⟨2018, 2, 10⟩ ⟨2018, 2, 12⟩).Nodup) :=
  ⟨by decide, by decide, by decide, claim_C3 ⟨2018, 2, 10⟩ ⟨2018, 2, 12⟩ (by decide) (by decide) (by decide)⟩

/-! The textual form `YYYY-MM-DD`: `datetime.date.isoformat` and the strict
parse performed by `datetime.date.fromisoformat`, which `_parse_date` wraps. -/

/-- The ASCII digit with value `n` (for `n < 10`). -/
def digitChar (n : Nat) : Char := Char.ofNat (48 + n)

/-- Whether `c` is an ASCII digit. -/
def isDigitChar (c : Char) : Bool := decide (48 ≤ c.toNat) && decide (c.toNat ≤ 57)

/-- The value of an ASCII digit. -/
def digitVal (c : Char) : Nat := c.toNat - 48

/-- `datetime.date.isoformat`: the canonical zero-padded `YYYY-MM-DD` text. -/
def isoformat (d : Date) : String :=
  ⟨[digitChar (d.year / 1000 % 10), digitChar (d.year / 100 % 10),
    digitChar (d.year / 10 % 10), digitChar (d.year % 10), '-',
    digitChar (d.month / 10 % 10), digitChar (d.month % 10), '-',
    digitChar (d.day / 10 % 10), digitChar (d.day % 10)]⟩

/-- The message raised by `_parse_date` (api.py line 41). -/
def invalidDateMsg (s : String) : String :=
  "Invalid date format: " ++ s ++ ". Expected YYYY-MM-DD."

/-- `_parse_date` (api.py lines 37-41): `datetime.date.fromisoformat` on the
strict `YYYY-MM-DD` form, re-raising any failure with the api.py message. -/
def _parse_date (s : String) : Except String Date :=
  match s.data with
  | [y1, y2, y3, y4, c1, m1, m2, c2, d1, d2] =>
    if isDigitChar y1 && isDigitChar y2 && isDigitChar y3 && isDigitChar y4
        && (c1 == '-') && isDigitChar m1 && isDigitChar m2 && (c2 == '-')
        && isDigitChar d1 && isDigitChar d2 then
      if Valid ⟨((digitVal y1 * 10 + digitVal y2) * 10 + digitVal y3) * 10 + digitVal y4,
          digitVal m1 * 10 + digitVal m2, digitVal d1 * 10 + digitVal d2⟩ then
        .ok ⟨((digitVal y1 * 10 + digitVal y2) * 10 + digitVal y3) * 10 + digitVal y4,
          digitVal m1 * 10 + digitVal m2, digitVal d1 * 10 + digitVal d2⟩
      else .error (invalidDateMsg s)
    else .error (invalidDateMsg s)
  | _ => .error (invalidDateMsg s)

theorem isDigitChar_digitChar : ∀ n < 10, isDigitChar (digitChar n) = true := by decide

theorem digitVal_digitChar : ∀ n < 10, digitVal (digitChar n) = n := by decide

theorem digitVal_le_9 {c : Char} (h : isDigitChar c = true) : digitVal c ≤ 9 := by
  unfold isDigitChar at h
  unfold digitVal
  simp only [Bool.and_eq_true, decide_eq_true_eq] at h
  omega

theorem digitChar_digitVal {c : Char} (h : isDigitChar c = true) :
    digitChar (digitVal c) = c := by
  unfold isDigitChar at h
  simp only [Bool.and_eq_true, decide_eq_true_eq] at h
  unfold digitChar digitVal
  rw [show 48 + (c.toNat - 48) = c.toNat by omega]
  exact Char.ofNat_toNat c

theorem digits4_recompose (n : Nat) (h : n < 10000) :
    ((digitVal (digitChar (n / 1000 % 10)) * 10 + digitVal (digitChar (n / 100 % 10))) * 10
        + digitVal (digitChar (n / 10 % 10))) * 10 + digitVal (digitChar (n % 10)) = n := by
  rw [digitVal_digitChar (n / 1000 % 10) (by omega), digitVal_digitChar (n / 100 % 10) (by omega),
    digitVal_digitChar (n / 10 % 10) (by omega), digitVal_digitChar (n % 10) (by omega)]
  omega

theorem digits2_recompose (n : Nat) (h : n < 100) :
    digitVal (digitChar (n / 10 % 10)) * 10 + digitVal (digitChar (n % 10)) = n := by
  rw [digitVal_digitChar (n / 10 % 10) (by omega), digitVal_digitChar (n % 10) (by omega)]
  omega

/-- A valid date's day count never exceeds 31. -/
theorem day_le_31 {d : Date} (h : Valid d) : d.day ≤ 31 := by
  obtain ⟨-, hm1, hm12, -, hd2⟩ := h
  have := daysInMonthAux_le_31 (isLeap d.year) d.month (by omega)
  unfold daysInMonth at hd2
  omega

theorem parse_isoformat {d : Date} (hd : Valid d) (hy : d.year ≤ 9999) :
    _parse_date (isoformat d) = .ok d := by
  have hday := day_le_31 hd
  obtain ⟨y, m, day⟩ := d
  obtain ⟨hy1, hm1, hm12, hd1, hd2⟩ := hd
  simp only at hy hday hy1 hm1 hm12 hd1 hd2
  have a1 := isDigitChar_digitChar (y / 1000 % 10) (by omega)
  have a2 := isDigitChar_digitChar (y / 100 % 10) (by omega)
  have a3 := isDigitChar_digitChar (y / 10 % 10) (by omega)
  have a4 := isDigitChar_digitChar (y % 10) (by omega)
  have a5 := isDigitChar_digitChar (m / 10 % 10) (by omega)
  have a6 := isDigitChar_digitChar (m % 10) (by omega)
  have a7 := isDigitChar_digitChar (day / 10 % 10) (by omega)
  have a8 := isDigitChar_digitChar (day % 10) (by omega)
  show _parse_date ⟨_⟩ = _
  unfold _parse_date
  simp only [a1, a2, a3, a4, a5, a6, a7, a8, beq_self_eq_true, Bool.and_self, Bool.and_true,
    Bool.true_and, if_true]
  rw [digits4_recompose y (by omega), digits2_recompose m (by omega),
    digits2_recompose day (by omega)]
  exact if_pos (show Valid ⟨y, m, day⟩ from ⟨hy1, hm1, hm12, hd1, hd2⟩)

theorem parse_ok_canonical {s : String} {d : Date} (h : _parse_date s = .ok d) :
    Valid d ∧ d.year ≤ 9999 ∧ isoformat d = s := by
  unfold _parse_date at h
  split at h
  · next y1 y2 y3 y4 c1 m1 m2 c2 d1 d2 hl =>
    split at h
    · next hcond =>
      split at h
      · next hvalid =>
        simp only [Except.ok.injEq] at h
        subst h
        simp only [Bool.and_eq_true, beq_iff_eq] at hcond
        obtain ⟨⟨⟨⟨⟨⟨⟨⟨⟨hy1, hy2⟩, hy3⟩, hy4⟩, hc1⟩, hm1⟩, hm2⟩, hc2⟩, hd1⟩, hd2⟩ := hcond
        have vy1 := digitVal_le_9 hy1
        have vy2 := digitVal_le_9 hy2
        have vy3 := digitVal_le_9 hy3
        have vy4 := digitVal_le_9 hy4
        have vm1 := digitVal_le_9 hm1
        have vm2 := digitVal_le_9 hm2
        have vd1 := digitVal_le_9 hd1
        have vd2 := digitVal_le_9 hd2
        refine ⟨hvalid, by simp only; omega, ?_⟩
        apply String.ext
        unfold isoformat
        show _ = s.data
        rw [hl]
        simp only
        have e1 : (((digitVal y1 * 10 + digitVal y2) * 10 + digitVal y3) * 10 + digitVal y4)
            / 1000 % 10 = digitVal y1 := by omega
        have e2 : (((digitVal y1 * 10 + digitVal y2) * 10 + digitVal y3) * 10 + digitVal y4)
            / 100 % 10 = digitVal y2 := by omega
        have e3 : (((digitVal y1 * 10 + digitVal y2) * 10 + digitVal y3) * 10 + digitVal y4)
            / 10 % 10 = digitVal y3 := by omega
        have e4 : (((digitVal y1 * 10 + digitVal y2) * 10 + digitVal y3) * 10 + digitVal y4)
            % 10 = digitVal y4 := by omega
        have e5 : (digitVal m1 * 10 + digitVal m2) / 10 % 10 = digitVal m1 := by omega
        have e6 : (digitVal m1 * 10 + digitVal m2) % 10 = digitVal m2 := by omega
        have e7 : (digitVal d1 * 10 + digitVal d2) / 10 % 10 = digitVal d1 := by omega
        have e8 : (digitVal d1 * 10 + digitVal d2) % 10 = digitVal d2 := by omega
        rw [e1, e2, e3, e4, e5, e6, e7, e8,
          digitChar_digitVal hy1, digitChar_digitVal hy2, digitChar_digitVal hy3,
          digitChar_digitVal hy4, digitChar_digitVal hm1, digitChar_digitVal hm2,
          digitChar_digitVal hd1, digitChar_digitVal hd2, hc1, hc2]
      · exact absurd h (by simp)
    · exact absurd h (by simp)
  · exact absurd h (by simp)

theorem parse_error_msg {s msg : String} (h : _parse_date s = .error msg) :
    msg = "Invalid date format: " ++ s ++ ". Expected YYYY-MM-DD." := by
  unfold _parse_date at h
  split at h
  · split at h
    · split at h
      · exact absurd h (by simp)
      · simp only [Except.error.injEq] at h
        exact h.symm
    · simp only [Except.error.injEq] at h
      exact h.symm
  · simp only [Except.error.injEq] at h
    exact h.symm

/-- C6: `_parse_date` accepts exactly the strict `YYYY-MM-DD` form — it
round-trips `isoformat` on every representable date, succeeds only on such
canonical texts, and on every other text fails with the message carrying the
offending literal. -/
theorem claim_C6 (d : Date) (hd : Valid d) (hy : d.year ≤ 9999) (s : String) :
    _parse_date (isoformat d) = .ok d
    ∧ (∀ d', _parse_date s = .ok d' → Valid d' ∧ d'.year ≤ 9999 ∧ isoformat d' = s)
    ∧ ((∃ d', _parse_date s = .ok d')
        ∨ _parse_date s = .error ("Invalid date format: " ++ s ++ ". Expected YYYY-MM-DD.")) := by
  refine ⟨parse_isoformat hd hy, fun d' h => parse_ok_canonical h, ?_⟩
  cases hp : _parse_date s with
  | ok d' => exact Or.inl ⟨d', rfl⟩
  | error msg => exact Or.inr (by rw [parse_error_msg hp])

/-- Closed instance of C6: 2018-02-11 round-trips, and "banana" is rejected
with the message carrying the literal. -/
theorem claim_C6_witness :
    Valid ⟨2018, 2, 11⟩ ∧ (2018 : Nat) ≤ 9999
    ∧ (_parse_date (isoformat ⟨2018, 2, 11⟩) = .ok ⟨2018, 2, 11⟩
      ∧ (∀ d', _parse_date "banana" = .ok d'
          → Valid d' ∧ d'.year ≤ 9999 ∧ isoformat d' = "banana")
      ∧ ((∃ d', _parse_date "banana" = .ok d')
        ∨ _parse_date "banana"
            = .error ("Invalid date format: " ++ "banana" ++ ". Expected YYYY-MM-DD."))) :=
  ⟨by decide, by decide, claim_C6 ⟨2018, 2, 11⟩ (by decide) (by decide) "banana"⟩

/-! The calendar oracle and the trading-day rules. -/

/-- The external calendar-classification data source (`chinese_calendar.utils`
facts `is_workday` / `is_holiday` / `is_in_lieu` / `get_holiday_detail`'s name):
the spec treats it as a pure lookup this design does not define. -/
structure Oracle where
  is_workday : Date → Bool
  is_holiday : Date → Bool
  is_in_lieu : Date → Bool
  holiday_name : Date → Option String

/-- Modelled from the spec: `chinese_calendar.utils.is_interbank_trading_day`
(not among the sources) — true iff the date is a workday. -/
def is_interbank_trading_day (o : Oracle) (d : Date) : Bool := o.is_workday d

/-- Modelled from the spec: `chinese_calendar.utils.is_a_share_trading_day`
(not among the sources) — true iff the date is a workday and falls on a
Monday–Friday weekday. -/
def is_a_share_trading_day (o : Oracle) (d : Date) : Bool :=
  o.is_workday d && !(isWeekend d)

/-- Modelled from the spec: `chinese_calendar.utils.get_holidays` (not among
the sources) — holidays in the inclusive range, dropping weekends when
`include_weekends` is false. -/
def get_holidays (o : Oracle) (start stop : Date) (include_weekends : Bool) : List Date :=
  (get_dates start stop).filter (fun d => o.is_holiday d && (include_weekends || !(isWeekend d)))

/-- Modelled from the spec: `chinese_calendar.utils.get_workdays` (not among
the sources) — workdays in the inclusive range, dropping weekends when
`include_weekends` is false. -/
def get_workdays (o : Oracle) (start stop : Date) (include_weekends : Bool) : List Date :=
  (get_dates start stop).filter (fun d => o.is_workday d && (include_weekends || !(isWeekend d)))

/-- Modelled from the spec: `chinese_calendar.utils.get_interbank_trading_days`
(not among the sources) — dates of the range on which the interbank market trades. -/
def get_interbank_trading_days (o : Oracle) (start stop : Date) : List Date :=
  (get_dates start stop).filter (is_interbank_trading_day o)

/-- Modelled from the spec: `chinese_calendar.utils.get_a_share_trading_days`
(not among the sources) — dates of the range on which the equity market trades. -/
def get_a_share_trading_days (o : Oracle) (start stop : Date) : List Date :=
  (get_dates start stop).filter (is_a_share_trading_day o)

/-- Modelled from the spec: `chinese_calendar.utils.get_holiday_detail` (not
among the sources) — the holiday flag and the optional holiday name. -/
def get_holiday_detail (o : Oracle) (d : Date) : Bool × Option String :=
  (o.is_holiday d, o.holiday_name d)

/-- C1: `is_a_share_trading_day` is the conjunction of `is_workday` with the
date falling on a Monday–Friday weekday; on 2018-02-11, a Sunday redesignated
as a working day, `is_workday` holds while `is_a_share_trading_day` does not. -/
theorem claim_C1 (o : Oracle) (hsun : o.is_workday ⟨2018, 2, 11⟩ = true) :
    (∀ d : Date, is_a_share_trading_day o d = (o.is_workday d && decide (weekday d < 5)))
    ∧ o.is_workday ⟨2018, 2, 11⟩ = true
    ∧ is_a_share_trading_day o ⟨2018, 2, 11⟩ = false := by
  refine ⟨?_, hsun, ?_⟩
  · intro d
    unfold is_a_share_trading_day isWeekend
    by_cases h : 5 ≤ weekday d
    · have h2 : ¬ weekday d < 5 := by omega
      simp [h, h2]
    · have h2 : weekday d < 5 := by omega
      simp [h, h2]
  · unfold is_a_share_trading_day
    rw [hsun]
    decide

/-- Closed instance of C1 at an oracle marking every date a workday. -/
theorem claim_C1_witness :
    (Oracle.mk (fun _ => true) (fun _ => false) (fun _ => false) (fun _ => none)).is_workday
        ⟨2018, 2, 11⟩ = true
    ∧ ((∀ d : Date, is_a_share_trading_day
          (Oracle.mk (fun _ => true) (fun _ => false) (fun _ => false) (fun _ => none)) d
        = ((Oracle.mk (fun _ => true) (fun _ => false) (fun _ => false) (fun _ => none)).is_workday d
            && decide (weekday d < 5)))
      ∧ (Oracle.mk (fun _ => true) (fun _ => false) (fun _ => false) (fun _ => none)).is_workday
          ⟨2018, 2, 11⟩ = true
      ∧ is_a_share_trading_day
          (Oracle.mk (fun _ => true) (fun _ => false) (fun _ => false) (fun _ => none))
          ⟨2018, 2, 11⟩ = false) :=
  ⟨rfl, claim_C1 (Oracle.mk (fun _ => true) (fun _ => false) (fun _ => false) (fun _ => none)) rfl⟩

/-- C2: `is_interbank_trading_day` coincides with `is_workday` on every date,
weekend make-up working days included. -/
theorem claim_C2 (o : Oracle) (hsun : o.is_workday ⟨2018, 2, 11⟩ = true) :
    (∀ d : Date, is_interbank_trading_day o d = o.is_workday d)
    ∧ is_interbank_trading_day o ⟨2018, 2, 11⟩ = true := by
  exact ⟨fun d => rfl, hsun⟩

/-- Closed instance of C2 at an oracle marking every date a workday. -/
theorem claim_C2_witness :
    (Oracle.mk (fun _ => true) (fun _ => false) (fun _ => false) (fun _ => none)).is_workday
        ⟨2018, 2, 11⟩ = true
    ∧ ((∀ d : Date, is_interbank_trading_day
          (Oracle.mk (fun _ => true) (fun _ => false) (fun _ => false) (fun _ => none)) d
        = (Oracle.mk (fun _ => true) (fun _ => false) (fun _ => false) (fun _ => none)).is_workday d)
      ∧ is_interbank_trading_day
          (Oracle.mk (fun _ => true) (fun _ => false) (fun _ => false) (fun _ => none))
          ⟨2018, 2, 11⟩ = true) :=
  ⟨rfl, claim_C2 (Oracle.mk (fun _ => true) (fun _ => false) (fun _ => false) (fun _ => none)) rfl⟩

/-! The request-handling layer of api.py: parsed query strings, parameter
resolution, handlers, the route table and `do_GET`'s dispatch. -/

/-- A parsed query string, as `urllib.parse.parse_qs` hands it to a handler:
each key maps to the list of its values in appearance order. -/
abbrev Query := List (String × List String)

/-- `query.get(key)`: the value list, or `None` for an absent key. -/
def qget (q : Query) (k : String) : Option (List String) := q.lookup k

/-- `query.get(key, [None])[0]`: the first value of the key, if any. -/
def qfirst (q : Query) (k : String) : Option String :=
  match q.lookup k with
  | some (v :: _) => some v
  | _ => none

/-- Python truthiness of an optional list (`if dates:`). -/
def truthyList : Option (List String) → Bool
  | some (_ :: _) => true
  | _ => false

/-- Python truthiness of an optional string (`if start and end:`). -/
def truthyStr : Option String → Bool
  | some s => !(s == "")
  | none => false

/-- The comprehension `[_parse_date(d) for d in dates]`: parse in order,
propagating the first failure. -/
def parseDates : List String → Except String (List Date)
  | [] => .ok []
  | d :: ds =>
    match _parse_date d with
    | .error msg => .error msg
    | .ok x =>
      match parseDates ds with
      | .error msg => .error msg
      | .ok xs => .ok (x :: xs)

/-- `_collect_dates` (api.py lines 44-52): an explicit `dates` list takes
precedence; otherwise a `start`/`end` range is parsed, checked and expanded. -/
def _collect_dates (dates : Option (List String)) (start stop : Option String) :
    Except String (List Date) :=
  if truthyList dates then parseDates (dates.getD [])
  else if truthyStr start && truthyStr stop then
    match _parse_date (start.getD ""), _parse_date (stop.getD "") with
    | .ok start_date, .ok end_date =>
      if dateLt end_date start_date then
        .error "end date must not be earlier than start date"
      else .ok (get_dates start_date end_date)
    | .error msg, _ => .error msg
    | .ok _, .error msg => .error msg
  else .error "Provide either repeated 'dates' parameters or both 'start' and 'end'."

/-- The shapes of the JSON payloads the handlers build. -/
inductive Payload where
  | health : String → String → Payload
  | results : String → List (String × Bool) → Payload
  | detailResults : List (String × Bool × Option String) → Payload
  | typeResult : String → String → Bool → Payload
  | dayList : String → List String → Payload
deriving DecidableEq

/-- A route handler: parsed query to payload, or a `ValueError` message. -/
abbrev Handler := Query → Except String Payload

/-- The package version string (`chinese_calendar.__version__`, a constant of
the package outside the sources; its value is irrelevant to every claim). -/
def package_version : String := "1.10.0"

/-- `_health_handler` (api.py lines 55-56). -/
def _health_handler : Handler := fun _ => .ok (.health "ok" package_version)

/-- `_flag_handler` (api.py lines 59-64). -/
def _flag_handler (func : Date → Bool) (key : String) : Handler := fun query =>
  match _collect_dates (qget query "dates") (qfirst query "start") (qfirst query "end") with
  | .error msg => .error msg
  | .ok dates => .ok (.results key (dates.map (fun date => (isoformat date, func date))))

/-- `_interbank_handler` (api.py lines 67-74). -/
def _interbank_handler (o : Oracle) : Handler := fun query =>
  match _collect_dates (qget query "dates") (qfirst query "start") (qfirst query "end") with
  | .error msg => .error msg
  | .ok dates => .ok (.results "is_interbank_trading_day"
      (dates.map (fun date => (isoformat date, is_interbank_trading_day o date))))

/-- `_a_share_handler` (api.py lines 77-84). -/
def _a_share_handler (o : Oracle) : Handler := fun query =>
  match _collect_dates (qget query "dates") (qfirst query "start") (qfirst query "end") with
  | .error msg => .error msg
  | .ok dates => .ok (.results "is_a_share_trading_day"
      (dates.map (fun date => (isoformat date, is_a_share_trading_day o date))))

/-- `_holiday_detail_handler` (api.py lines 87-93). -/
def _holiday_detail_handler (o : Oracle) : Handler := fun query =>
  match _collect_dates (qget query "dates") (qfirst query "start") (qfirst query "end") with
  | .error msg => .error msg
  | .ok dates => .ok (.detailResults (dates.map (fun date =>
      (isoformat date, (get_holiday_detail o date).1, (get_holiday_detail o date).2))))

/-- `TYPE_CHECKERS` (api.py lines 28-34): the five selector names, in the
dictionary's insertion order, each with its predicate. -/
def TYPE_CHECKERS (o : Oracle) : List (String × (Date → Bool)) :=
  [("holiday", o.is_holiday),
   ("workday", o.is_workday),
   ("in-lieu", o.is_in_lieu),
   ("interbank-trading-day", is_interbank_trading_day o),
   ("a-share-trading-day", is_a_share_trading_day o)]

/-- Python's `<=` on strings: lexicographic comparison of code points. -/
def charListLe : List Char → List Char → Bool
  | [], _ => true
  | _ :: _, [] => false
  | a :: as, b :: bs =>
    if a.toNat < b.toNat then true
    else if b.toNat < a.toNat then false
    else charListLe as bs

def pyStrLe (a b : String) : Bool := charListLe a.data b.data

/-- Insertion of `x` into an already sorted list. -/
def insertSorted (x : String) : List String → List String
  | [] => [x]
  | y :: ys => if pyStrLe x y then x :: y :: ys else y :: insertSorted x ys

/-- Python's `sorted` on a list of strings (insertion sort; the order is all
that matters). -/
def sortStrings : List String → List String
  | [] => []
  | x :: xs => insertSorted x (sortStrings xs)

/-- `", ".join(sorted(TYPE_CHECKERS.keys()))` of api.py line 108. -/
def supportedTypes : String :=
  ", ".intercalate (sortStrings ["holiday", "workday", "in-lieu",
    "interbank-trading-day", "a-share-trading-day"])

/-- `_type_check_handler` (api.py lines 96-112). -/
def _type_check_handler (o : Oracle) : Handler := fun query =>
  let date_value := qfirst query "date"
  if !truthyStr date_value then
    .error "'date' query parameter is required for this endpoint."
  else
    let type_value := qfirst query "type"
    if !truthyStr type_value then
      .error "'type' query parameter is required for this endpoint."
    else
      match (TYPE_CHECKERS o).lookup (type_value.getD "") with
      | none => .error ("Unknown type '" ++ type_value.getD "" ++ "'. Supported types: "
          ++ supportedTypes ++ ".")
      | some checker =>
        match _parse_date (date_value.getD "") with
        | .error msg => .error msg
        | .ok date => .ok (.typeResult (isoformat date) (type_value.getD "") (checker date))

/-- Python's `str.lower` on the ASCII range, in which every recognized
boolean token lies: each character lower-cased. -/
def strLower (s : String) : String := ⟨s.data.map Char.toLower⟩

/-- `_parse_bool` (api.py lines 115-123). -/
def _parse_bool (value : Option String) (default : Bool) : Except String Bool :=
  match value with
  | none => .ok default
  | some v =>
    if strLower v ∈ ["true", "1", "yes", "on"] then .ok true
    else if strLower v ∈ ["false", "0", "no", "off"] then .ok false
    else .error "Boolean parameters accept true/false/1/0/yes/no/on/off"

/-- `_range_required` (api.py lines 126-133). -/
def _range_required (query : Query) : Except String (Date × Date) :=
  let start := qfirst query "start"
  let stop := qfirst query "end"
  if !truthyStr start || !truthyStr stop then
    .error "'start' and 'end' query parameters are required for this endpoint."
  else
    match _parse_date (start.getD ""), _parse_date (stop.getD "") with
    | .ok start_date, .ok end_date =>
      if dateLt end_date start_date then
        .error "end date must not be earlier than start date"
      else .ok (start_date, end_date)
    | .error msg, _ => .error msg
    | .ok _, .error msg => .error msg

/-- `_range_list_handler` (api.py lines 136-146): when the endpoint does not
support `include_weekends`, the parameter is never parsed and the range
function is called without it. -/
def _range_list_handler (func : Date → Date → Bool → List Date) (key : String)
    (include_weekends_supported : Bool) : Handler := fun query =>
  match _range_required query with
  | .error msg => .error msg
  | .ok (start, stop) =>
    let include_weekends_param := qfirst query "include_weekends"
    if include_weekends_supported then
      match _parse_bool include_weekends_param true with
      | .error msg => .error msg
      | .ok include_weekends =>
        .ok (.dayList key ((func start stop include_weekends).map isoformat))
    else .ok (.dayList key ((func start stop true).map isoformat))

/-- `_CalendarRequestHandler.routes` (api.py lines 150-167). -/
def routes (o : Oracle) : List (String × Handler) :=
  [("/api/health", _health_handler),
   ("/api/workdays", _flag_handler o.is_workday "is_workday"),
   ("/api/holidays", _flag_handler o.is_holiday "is_holiday"),
   ("/api/in-lieu", _flag_handler o.is_in_lieu "is_in_lieu"),
   ("/api/holiday/detail", _holiday_detail_handler o),
   ("/api/date/type", _type_check_handler o),
   ("/api/holidays/range", _range_list_handler (get_holidays o) "holidays" true),
   ("/api/workdays/range", _range_list_handler (get_workdays o) "workdays" true),
   ("/api/interbank/trading-days", _interbank_handler o),
   ("/api/a-share/trading-days", _a_share_handler o),
   ("/api/interbank/trading-days/list",
     _range_list_handler (fun start stop _ => get_interbank_trading_days o start stop)
       "interbank_trading_days" false),
   ("/api/a-share/trading-days/list",
     _range_list_handler (fun start stop _ => get_a_share_trading_days o start stop)
       "a_share_trading_days" false)]

/-- A response body: a handler payload or a `detail` error object. -/
inductive Body where
  | payload : Payload → Body
  | detail : String → Body
deriving DecidableEq

/-- `do_GET` (api.py lines 180-191): dispatch on the path, 404 for an unknown
path, 400 with the `ValueError` message on a validation failure, 200 otherwise. -/
def do_GET (o : Oracle) (path : String) (query : Query) : Nat × Body :=
  match (routes o).lookup path with
  | none => (404, .detail "Not Found")
  | some handler =>
    match handler query with
    | .error msg => (400, .detail msg)
    | .ok payload => (200, .payload payload)

/-! Claims about the parameter resolvers. -/

theorem parseDates_ok : ∀ (ds : List String) (ps : List Date), ds.length = ps.length →
    (∀ i (h : i < ds.length) (h2 : i < ps.length),
      _parse_date (ds.get ⟨i, h⟩) = .ok (ps.get ⟨i, h2⟩)) →
    parseDates ds = .ok ps := by
  intro ds
  induction ds with
  | nil =>
    intro ps hlen _
    cases ps with
    | nil => rfl
    | cons p ps => simp at hlen
  | cons d ds ih =>
    intro ps hlen hp
    cases ps with
    | nil => simp at hlen
    | cons p ps =>
      have h0 : _parse_date d = .ok p := hp 0 (Nat.succ_pos _) (Nat.succ_pos _)
      have hrest : parseDates ds = .ok ps :=
        ih ps (by simpa using hlen)
          (fun i h h2 => hp (i + 1) (Nat.succ_lt_succ h) (Nat.succ_lt_succ h2))
      simp only [parseDates, h0, hrest]

/-- C4: with a non-empty explicit `dates` list, `_collect_dates` parses each
element in order (duplicates kept) and the `start`/`end` range texts are
ignored. -/
theorem claim_C4 (ds : List String) (ps : List Date) (st en st2 en2 : Option String)
    (hne : ds ≠ []) (hlen : ds.length = ps.length)
    (hparse : ∀ i (h : i < ds.length),
      _parse_date (ds.get ⟨i, h⟩) = .ok (ps.get ⟨i, hlen ▸ h⟩)) :
    _collect_dates (some ds) st en = .ok ps
    ∧ _collect_dates (some ds) st en = _collect_dates (some ds) st2 en2 := by
  have htr : truthyList (some ds) = true := by
    cases ds with
    | nil => exact absurd rfl hne
    | cons d ds => rfl
  have hok : parseDates ds = .ok ps :=
    parseDates_ok ds ps hlen (fun i h h2 => hparse i h)
  constructor
  · simp only [_collect_dates, htr, if_true, Option.getD]
    exact hok
  · simp only [_collect_dates, htr, if_true]

/-- Closed instance of C4: a duplicated explicit list wins over an
inconsistent range. -/
theorem claim_C4_witness :
    (["2018-02-11", "2018-02-11"] : List String) ≠ []
    ∧ _collect_dates (some ["2018-02-11", "2018-02-11"]) (some "2019-01-01") (some "2018-01-01")
        = .ok [⟨2018, 2, 11⟩, ⟨2018, 2, 11⟩]
    ∧ _collect_dates (some ["2018-02-11", "2018-02-11"]) (some "2019-01-01") (some "2018-01-01")
        = _collect_dates (some ["2018-02-11", "2018-02-11"]) none none :=
  ⟨by decide,
    claim_C4 ["2018-02-11", "2018-02-11"] [⟨2018, 2, 11⟩, ⟨2018, 2, 11⟩]
      (some "2019-01-01") (some "2018-01-01") none none (by decide) (by decide)
      (fun i h => by
        match i with
        | 0 => rfl
        | 1 => rfl
        | n + 2 =>
          have h2 : (["2018-02-11", "2018-02-11"] : List String).length = 2 := rfl
          omega)⟩

/-- C8: `_parse_bool` is the tri-state parse: case-insensitive true/1/yes/on,
false/0/no/off, the default on absent input, an error otherwise. -/
theorem claim_C8 (v : String) (default : Bool) :
    _parse_bool none default = .ok default
    ∧ (strLower v ∈ ["true", "1", "yes", "on"] → _parse_bool (some v) default = .ok true)
    ∧ (strLower v ∈ ["false", "0", "no", "off"] → _parse_bool (some v) default = .ok false)
    ∧ (strLower v ∉ ["true", "1", "yes", "on"] → strLower v ∉ ["false", "0", "no", "off"] →
        _parse_bool (some v) default
          = .error "Boolean parameters accept true/false/1/0/yes/no/on/off") := by
  refine ⟨rfl, ?_, ?_, ?_⟩
  · intro h
    simp [_parse_bool, h]
  · intro h
    have h' : strLower v ∉ ["true", "1", "yes", "on"] := by
      intro hT
      simp only [List.mem_cons, List.not_mem_nil, or_false] at h hT
      rcases hT with e1 | e1 | e1 | e1 <;> rcases h with e2 | e2 | e2 | e2 <;>
        (rw [e1] at e2; exact absurd e2 (by decide))
    simp [_parse_bool, h, h']
  · intro h1 h2
    simp [_parse_bool, h1, h2]

/-- Closed instance of C8 over all four behaviours. -/
theorem claim_C8_witness :
    _parse_bool (some "TRUE") false = .ok true
    ∧ _parse_bool (some "off") true = .ok false
    ∧ _parse_bool none false = .ok false
    ∧ _parse_bool (some "banana") true
        = .error "Boolean parameters accept true/false/1/0/yes/no/on/off" :=
  ⟨(claim_C8 "TRUE" false).2.1 (by decide),
   (claim_C8 "off" true).2.2.1 (by decide),
   (claim_C8 "x" false).1,
   (claim_C8 "banana" true).2.2.2 (by decide) (by decide)⟩

/-- C10: an empty-string value of a required text parameter is treated as
absent: `_collect_dates` and `_range_required` answer their
missing-parameter errors, and `_type_check_handler` its missing `date`
or `type` error, never a format or unknown-selector error. -/
theorem claim_C10 (o : Oracle) (dates : Option (List String)) (st en : Option String)
    (q1 q2 q3 q4 : Query) (dv : String)
    (hd : truthyList dates = false)
    (h1 : qfirst q1 "start" = some "") (h2 : qfirst q2 "end" = some "")
    (h3 : qfirst q3 "date" = some "")
    (h4d : qfirst q4 "date" = some dv) (hdv : dv ≠ "") (h4t : qfirst q4 "type" = some "") :
    _collect_dates dates (some "") en
        = .error "Provide either repeated 'dates' parameters or both 'start' and 'end'."
    ∧ _collect_dates dates st (some "")
        = .error "Provide either repeated 'dates' parameters or both 'start' and 'end'."
    ∧ _range_required q1
        = .error "'start' and 'end' query parameters are required for this endpoint."
    ∧ _range_required q2
        = .error "'start' and 'end' query parameters are required for this endpoint."
    ∧ _type_check_handler o q3
        = .error "'date' query parameter is required for this endpoint."
    ∧ _type_check_handler o q4
        = .error "'type' query parameter is required for this endpoint." := by
  have hdvb : (dv == "") = false := beq_eq_false_iff_ne.mpr hdv
  refine ⟨?_, ?_, ?_, ?_, ?_, ?_⟩
  · simp [_collect_dates, hd, truthyStr]
  · simp [_collect_dates, hd, truthyStr]
  · simp [_range_required, h1, truthyStr]
  · simp [_range_required, h2, truthyStr]
  · simp [_type_check_handler, h3, truthyStr]
  · simp [_type_check_handler, h4d, h4t, truthyStr, hdvb]

/-- Closed instance of C10 at concrete queries with empty-string values. -/
theorem claim_C10_witness :
    truthyList (none : Option (List String)) = false
    ∧ qfirst [("start", [""])] "start" = some ""
    ∧ qfirst [("end", [""])] "end" = some ""
    ∧ qfirst [("date", [""])] "date" = some ""
    ∧ qfirst [("date", ["2018-02-11"]), ("type", [""])] "date" = some "2018-02-11"
    ∧ ("2018-02-11" : String) ≠ ""
    ∧ qfirst [("date", ["2018-02-11"]), ("type", [""])] "type" = some ""
    ∧ (_collect_dates none (some "") none
        = .error "Provide either repeated 'dates' parameters or both 'start' and 'end'."
      ∧ _collect_dates none none (some "")
        = .error "Provide either repeated 'dates' parameters or both 'start' and 'end'."
      ∧ _range_required [("start", [""])]
        = .error "'start' and 'end' query parameters are required for this endpoint."
      ∧ _range_required [("end", [""])]
        = .error "'start' and 'end' query parameters are required for this endpoint."
      ∧ _type_check_handler (Oracle.mk (fun _ => true) (fun _ => false) (fun _ => false)
          (fun _ => none)) [("date", [""])]
        = .error "'date' query parameter is required for this endpoint."
      ∧ _type_check_handler (Oracle.mk (fun _ => true) (fun _ => false) (fun _ => false)
          (fun _ => none)) [("date", ["2018-02-11"]), ("type", [""])]
        = .error "'type' query parameter is required for this endpoint.") :=
  ⟨rfl, rfl, rfl, rfl, rfl, by decide, rfl,
    claim_C10 (Oracle.mk (fun _ => true) (fun _ => false) (fun _ => false) (fun _ => none))
      none none none [("start", [""])] [("end", [""])] [("date", [""])]
      [("date", ["2018-02-11"]), ("type", [""])] "2018-02-11"
      rfl rfl rfl rfl rfl (by decide) rfl⟩

/-! Claims about the route handlers and `do_GET`. -/

theorem collect_range_error {dates : Option (List String)} {s e : String} {sd ed : Date}
    (hd : truthyList dates = false) (hs' : s ≠ "") (he' : e ≠ "")
    (hps : _parse_date s = .ok sd) (hpe : _parse_date e = .ok ed)
    (hlt : dateLt ed sd = true) :
    _collect_dates dates (some s) (some e)
      = .error "end date must not be earlier than start date" := by
  have hsb : (s == "") = false := beq_eq_false_iff_ne.mpr hs'
  have heb : (e == "") = false := beq_eq_false_iff_ne.mpr he'
  simp [_collect_dates, hd, truthyStr, hsb, heb, hps, hpe, hlt]

theorem range_required_error {q : Query} {s e : String} {sd ed : Date}
    (hs : qfirst q "start" = some s) (he : qfirst q "end" = some e)
    (hs' : s ≠ "") (he' : e ≠ "")
    (hps : _parse_date s = .ok sd) (hpe : _parse_date e = .ok ed)
    (hlt : dateLt ed sd = true) :
    _range_required q = .error "end date must not be earlier than start date" := by
  have hsb : (s == "") = false := beq_eq_false_iff_ne.mpr hs'
  have heb : (e == "") = false := beq_eq_false_iff_ne.mpr he'
  simp [_range_required, hs, he, truthyStr, hsb, heb, hps, hpe, hlt]

/-- C5: on every range-consuming endpoint, a request whose range is used
(no explicit `dates` list) and whose parsed end date lies strictly before its
parsed start date is answered with HTTP 400 and the range error detail. -/
theorem claim_C5 (o : Oracle) (q : Query) (p : String)
    (hp : p ∈ (["/api/workdays", "/api/holidays", "/api/in-lieu", "/api/holiday/detail",
      "/api/interbank/trading-days", "/api/a-share/trading-days",
      "/api/holidays/range", "/api/workdays/range",
      "/api/interbank/trading-days/list", "/api/a-share/trading-days/list"] : List String))
    (hdates : truthyList (qget q "dates") = false)
    (s e : String) (hs : qfirst q "start" = some s) (he : qfirst q "end" = some e)
    (hs' : s ≠ "") (he' : e ≠ "")
    (sd ed : Date) (hps : _parse_date s = .ok sd) (hpe : _parse_date e = .ok ed)
    (hlt : dateLt ed sd = true) :
    do_GET o p q = (400, Body.detail "end date must not be earlier than start date") := by
  have hc : _collect_dates (qget q "dates") (qfirst q "start") (qfirst q "end")
      = .error "end date must not be earlier than start date" := by
    rw [hs, he]
    exact collect_range_error hdates hs' he' hps hpe hlt
  have hr : _range_required q = .error "end date must not be earlier than start date" :=
    range_required_error hs he hs' he' hps hpe hlt
  simp only [List.mem_cons, List.not_mem_nil, or_false] at hp
  rcases hp with rfl | rfl | rfl | rfl | rfl | rfl | rfl | rfl | rfl | rfl
  · unfold do_GET
    rw [show (routes o).lookup "/api/workdays"
      = some (_flag_handler o.is_workday "is_workday") from rfl]
    dsimp only [_flag_handler]
    rw [hc]
  · unfold do_GET
    rw [show (routes o).lookup "/api/holidays"
      = some (_flag_handler o.is_holiday "is_holiday") from rfl]
    dsimp only [_flag_handler]
    rw [hc]
  · unfold do_GET
    rw [show (routes o).lookup "/api/in-lieu"
      = some (_flag_handler o.is_in_lieu "is_in_lieu") from rfl]
    dsimp only [_flag_handler]
    rw [hc]
  · unfold do_GET
    rw [show (routes o).lookup "/api/holiday/detail"
      = some (_holiday_detail_handler o) from rfl]
    dsimp only [_holiday_detail_handler]
    rw [hc]
  · unfold do_GET
    rw [show (routes o).lookup "/api/interbank/trading-days"
      = some (_interbank_handler o) from rfl]
    dsimp only [_interbank_handler]
    rw [hc]
  · unfold do_GET
    rw [show (routes o).lookup "/api/a-share/trading-days"
      = some (_a_share_handler o) from rfl]
    dsimp only [_a_share_handler]
    rw [hc]
  · unfold do_GET
    rw [show (routes o).lookup "/api/holidays/range"
      = some (_range_list_handler (get_holidays o) "holidays" true) from rfl]
    dsimp only [_range_list_handler]
    rw [hr]
  · unfold do_GET
    rw [show (routes o).lookup "/api/workdays/range"
      = some (_range_list_handler (get_workdays o) "workdays" true) from rfl]
    dsimp only [_range_list_handler]
    rw [hr]
  · unfold do_GET
    rw [show (routes o).lookup "/api/interbank/trading-days/list"
      = some (_range_list_handler (fun start stop _ => get_interbank_trading_days o start stop)
          "interbank_trading_days" false) from rfl]
    dsimp only [_range_list_handler]
    rw [hr]
  · unfold do_GET
    rw [show (routes o).lookup "/api/a-share/trading-days/list"
      = some (_range_list_handler (fun start stop _ => get_a_share_trading_days o start stop)
          "a_share_trading_days" false) from rfl]
    dsimp only [_range_list_handler]
    rw [hr]

/-- Closed instance of C5: an inverted range on `/api/workdays`. -/
theorem claim_C5_witness :
    ("/api/workdays" : String) ∈ (["/api/workdays", "/api/holidays", "/api/in-lieu",
      "/api/holiday/detail", "/api/interbank/trading-days", "/api/a-share/trading-days",
      "/api/holidays/range", "/api/workdays/range",
      "/api/interbank/trading-days/list", "/api/a-share/trading-days/list"] : List String)
    ∧ truthyList (qget [("start", ["2018-02-12"]), ("end", ["2018-02-10"])] "dates") = false
    ∧ _parse_date "2018-02-12" = .ok ⟨2018, 2, 12⟩
    ∧ _parse_date "2018-02-10" = .ok ⟨2018, 2, 10⟩
    ∧ dateLt ⟨2018, 2, 10⟩ ⟨2018, 2, 12⟩ = true
    ∧ do_GET (Oracle.mk (fun _ => true) (fun _ => false) (fun _ => false) (fun _ => none))
        "/api/workdays" [("start", ["2018-02-12"]), ("end", ["2018-02-10"])]
      = (400, Body.detail "end date must not be earlier than start date") :=
  ⟨by decide, rfl, rfl, rfl, by decide,
    claim_C5 (Oracle.mk (fun _ => true) (fun _ => false) (fun _ => false) (fun _ => none))
      [("start", ["2018-02-12"]), ("end", ["2018-02-10"])] "/api/workdays"
      (by decide) rfl "2018-02-12" "2018-02-10" rfl rfl (by decide) (by decide)
      ⟨2018, 2, 12⟩ ⟨2018, 2, 10⟩ rfl rfl (by decide)⟩

theorem type_checkers_lookup_none {o : Oracle} {tv : String}
    (h : tv ∉ (["holiday", "workday", "in-lieu", "interbank-trading-day",
      "a-share-trading-day"] : List String)) :
    (TYPE_CHECKERS o).lookup tv = none := by
  simp only [List.mem_cons, List.not_mem_nil, or_false, not_or] at h
  obtain ⟨n1, n2, n3, n4, n5⟩ := h
  have e1 : (tv == "holiday") = false := beq_eq_false_iff_ne.mpr n1
  have e2 : (tv == "workday") = false := beq_eq_false_iff_ne.mpr n2
  have e3 : (tv == "in-lieu") = false := beq_eq_false_iff_ne.mpr n3
  have e4 : (tv == "interbank-trading-day") = false := beq_eq_false_iff_ne.mpr n4
  have e5 : (tv == "a-share-trading-day") = false := beq_eq_false_iff_ne.mpr n5
  simp [TYPE_CHECKERS, List.lookup, e1, e2, e3, e4, e5]

/-- C7: the `/api/date/type` selector is a case-sensitive exact match on the
five names; any other non-empty value yields HTTP 400 whose detail lists all
five names sorted, and an absent (or empty) selector yields the
missing-selector HTTP 400 error. -/
theorem claim_C7 (o : Oracle) (q : Query) (dv : String)
    (hdate : qfirst q "date" = some dv) (hdv : dv ≠ "") :
    supportedTypes = "a-share-trading-day, holiday, in-lieu, interbank-trading-day, workday"
    ∧ (∀ tv, qfirst q "type" = some tv →
        tv ∉ (["holiday", "workday", "in-lieu", "interbank-trading-day",
          "a-share-trading-day"] : List String) → tv ≠ "" →
        do_GET o "/api/date/type" q = (400, Body.detail ("Unknown type '" ++ tv
          ++ "'. Supported types: " ++ supportedTypes ++ ".")))
    ∧ ((qfirst q "type" = none ∨ qfirst q "type" = some "") →
        do_GET o "/api/date/type" q
          = (400, Body.detail "'type' query parameter is required for this endpoint."))
    ∧ (∀ tv, qfirst q "type" = some tv →
        tv ∈ (["holiday", "workday", "in-lieu", "interbank-trading-day",
          "a-share-trading-day"] : List String) →
        ∃ checker, (TYPE_CHECKERS o).lookup tv = some checker ∧
          _type_check_handler o q
            = match _parse_date dv with
              | .error msg => .error msg
              | .ok date => .ok (.typeResult (isoformat date) tv (checker date))) := by
  have hdvb : (dv == "") = false := beq_eq_false_iff_ne.mpr hdv
  have hroute : ∀ r : Except String Payload, _type_check_handler o q = r →
      do_GET o "/api/date/type" q = (match r with
        | .error msg => (400, Body.detail msg)
        | .ok payload => (200, Body.payload payload)) := by
    intro r hr
    unfold do_GET
    rw [show (routes o).lookup "/api/date/type" = some (_type_check_handler o) from rfl]
    show (match _type_check_handler o q with
      | .error msg => (400, Body.detail msg)
      | .ok payload => (200, Body.payload payload)) = _
    rw [hr]
  refine ⟨rfl, ?_, ?_, ?_⟩
  · intro tv htv hnotin hne
    have htvb : (tv == "") = false := beq_eq_false_iff_ne.mpr hne
    have hl := type_checkers_lookup_none (o := o) hnotin
    exact hroute (.error ("Unknown type '" ++ tv ++ "'. Supported types: "
        ++ supportedTypes ++ "."))
      (by simp [_type_check_handler, hdate, htv, truthyStr, hdvb, htvb, hl])
  · intro hab
    rcases hab with hab | hab
    · exact hroute (.error "'type' query parameter is required for this endpoint.")
        (by simp [_type_check_handler, hdate, hab, truthyStr, hdvb])
    · exact hroute (.error "'type' query parameter is required for this endpoint.")
        (by simp [_type_check_handler, hdate, hab, truthyStr, hdvb])
  · intro tv htv hin
    simp only [List.mem_cons, List.not_mem_nil, or_false] at hin
    rcases hin with rfl | rfl | rfl | rfl | rfl
    · exact ⟨o.is_holiday, rfl,
        by simp [_type_check_handler, hdate, htv, truthyStr, hdvb, TYPE_CHECKERS, List.lookup]⟩
    · exact ⟨o.is_workday, rfl,
        by simp [_type_check_handler, hdate, htv, truthyStr, hdvb, TYPE_CHECKERS, List.lookup]⟩
    · exact ⟨o.is_in_lieu, rfl,
        by simp [_type_check_handler, hdate, htv, truthyStr, hdvb, TYPE_CHECKERS, List.lookup]⟩
    · exact ⟨is_interbank_trading_day o, rfl,
        by simp [_type_check_handler, hdate, htv, truthyStr, hdvb, TYPE_CHECKERS, List.lookup]⟩
    · exact ⟨is_a_share_trading_day o, rfl,
        by simp [_type_check_handler, hdate, htv, truthyStr, hdvb, TYPE_CHECKERS, List.lookup]⟩

/-- Closed instance of C7 at `date=2018-02-16`, exercising the hypotheses. -/
theorem claim_C7_witness :
    qfirst [("date", ["2018-02-16"]), ("type", ["unknown"])] "date" = some "2018-02-16"
    ∧ ("2018-02-16" : String) ≠ ""
    ∧ (supportedTypes
        = "a-share-trading-day, holiday, in-lieu, interbank-trading-day, workday"
      ∧ (∀ tv, qfirst [("date", ["2018-02-16"]), ("type", ["unknown"])] "type" = some tv →
          tv ∉ (["holiday", "workday", "in-lieu", "interbank-trading-day",
            "a-share-trading-day"] : List String) → tv ≠ "" →
          do_GET (Oracle.mk (fun _ => true) (fun _ => false) (fun _ => false) (fun _ => none))
              "/api/date/type" [("date", ["2018-02-16"]), ("type", ["unknown"])]
            = (400, Body.detail ("Unknown type '" ++ tv
                ++ "'. Supported types: " ++ supportedTypes ++ ".")))
      ∧ ((qfirst [("date", ["2018-02-16"]), ("type", ["unknown"])] "type" = none
          ∨ qfirst [("date", ["2018-02-16"]), ("type", ["unknown"])] "type" = some "") →
          do_GET (Oracle.mk (fun _ => true) (fun _ => false) (fun _ => false) (fun _ => none))
              "/api/date/type" [("date", ["2018-02-16"]), ("type", ["unknown"])]
            = (400, Body.detail "'type' query parameter is required for this endpoint."))
      ∧ (∀ tv, qfirst [("date", ["2018-02-16"]), ("type", ["unknown"])] "type" = some tv →
          tv ∈ (["holiday", "workday", "in-lieu", "interbank-trading-day",
            "a-share-trading-day"] : List String) →
          ∃ checker, (TYPE_CHECKERS (Oracle.mk (fun _ => true) (fun _ => false)
              (fun _ => false) (fun _ => none))).lookup tv = some checker ∧
            _type_check_handler (Oracle.mk (fun _ => true) (fun _ => false)
                (fun _ => false) (fun _ => none))
                [("date", ["2018-02-16"]), ("type", ["unknown"])]
              = match _parse_date "2018-02-16" with
                | .error msg => .error msg
                | .ok date => .ok (.typeResult (isoformat date) tv (checker date)))) :=
  ⟨rfl, by decide,
    claim_C7 (Oracle.mk (fun _ => true) (fun _ => false) (fun _ => false) (fun _ => none))
      [("date", ["2018-02-16"]), ("type", ["unknown"])] "2018-02-16" rfl (by decide)⟩

theorem range_required_congr (q1 q2 : Query)
    (h1 : qfirst q1 "start" = qfirst q2 "start") (h2 : qfirst q1 "end" = qfirst q2 "end") :
    _range_required q1 = _range_required q2 := by
  unfold _range_required
  rw [h1, h2]

/-- C9: on the interbank and a-share list endpoints `include_weekends` has no
effect: two requests agreeing on `start` and `end` get identical responses
whatever the parameter holds, and a resolvable range yields HTTP 200. -/
theorem claim_C9 (o : Oracle) (q1 q2 : Query) (p : String)
    (hp : p = "/api/interbank/trading-days/list" ∨ p = "/api/a-share/trading-days/list")
    (h1 : qfirst q1 "start" = qfirst q2 "start") (h2 : qfirst q1 "end" = qfirst q2 "end") :
    do_GET o p q1 = do_GET o p q2
    ∧ (∀ sd ed, _range_required q1 = .ok (sd, ed) → (do_GET o p q1).1 = 200) := by
  have hcong := range_required_congr q1 q2 h1 h2
  rcases hp with rfl | rfl
  · constructor
    · unfold do_GET
      rw [show (routes o).lookup "/api/interbank/trading-days/list"
        = some (_range_list_handler (fun start stop _ => get_interbank_trading_days o start stop)
            "interbank_trading_days" false) from rfl]
      simp only [_range_list_handler, hcong, Bool.false_eq_true, if_false]
    · intro sd ed hok
      unfold do_GET
      rw [show (routes o).lookup "/api/interbank/trading-days/list"
        = some (_range_list_handler (fun start stop _ => get_interbank_trading_days o start stop)
            "interbank_trading_days" false) from rfl]
      simp [_range_list_handler, hok]
  · constructor
    · unfold do_GET
      rw [show (routes o).lookup "/api/a-share/trading-days/list"
        = some (_range_list_handler (fun start stop _ => get_a_share_trading_days o start stop)
            "a_share_trading_days" false) from rfl]
      simp only [_range_list_handler, hcong, Bool.false_eq_true, if_false]
    · intro sd ed hok
      unfold do_GET
      rw [show (routes o).lookup "/api/a-share/trading-days/list"
        = some (_range_list_handler (fun start stop _ => get_a_share_trading_days o start stop)
            "a_share_trading_days" false) from rfl]
      simp [_range_list_handler, hok]

/-- Closed instance of C9: `include_weekends=banana` versus the parameter
absent, on a fixed valid range. -/
theorem claim_C9_witness :
    (("/api/interbank/trading-days/list" : String) = "/api/interbank/trading-days/list"
      ∨ ("/api/interbank/trading-days/list" : String) = "/api/a-share/trading-days/list")
    ∧ qfirst [("start", ["2018-02-10"]), ("end", ["2018-02-12"]),
        ("include_weekends", ["banana"])] "start"
      = qfirst [("start", ["2018-02-10"]), ("end", ["2018-02-12"])] "start"
    ∧ qfirst [("start", ["2018-02-10"]), ("end", ["2018-02-12"]),
        ("include_weekends", ["banana"])] "end"
      = qfirst [("start", ["2018-02-10"]), ("end", ["2018-02-12"])] "end"
    ∧ (do_GET (Oracle.mk (fun _ => true) (fun _ => false) (fun _ => false) (fun _ => none))
          "/api/interbank/trading-days/list"
          [("start", ["2018-02-10"]), ("end", ["2018-02-12"]),
            ("include_weekends", ["banana"])]
        = do_GET (Oracle.mk (fun _ => true) (fun _ => false) (fun _ => false) (fun _ => none))
          "/api/interbank/trading-days/list"
          [("start", ["2018-02-10"]), ("end", ["2018-02-12"])]
      ∧ (∀ sd ed, _range_required [("start", ["2018-02-10"]), ("end", ["2018-02-12"]),
            ("include_weekends", ["banana"])] = .ok (sd, ed) →
          (do_GET (Oracle.mk (fun _ => true) (fun _ => false) (fun _ => false) (fun _ => none))
            "/api/interbank/trading-days/list"
            [("start", ["2018-02-10"]), ("end", ["2018-02-12"]),
              ("include_weekends", ["banana"])]).1 = 200)) :=
  ⟨Or.inl rfl, rfl, rfl,
    claim_C9 (Oracle.mk (fun _ => true) (fun _ => false) (fun _ => false) (fun _ => none))
      [("start", ["2018-02-10"]), ("end", ["2018-02-12"]), ("include_weekends", ["banana"])]
      [("start", ["2018-02-10"]), ("end", ["2018-02-12"])]
      "/api/interbank/trading-days/list" (Or.inl rfl) rfl rfl⟩

end ChineseCalendar
